import Mathlib

/-!
Shallow embedding of the bot-listener repository core.

Text is modelled as `List Char` (Lean `String` operations do not reduce in the
kernel).  Python dictionaries are modelled as insertion-ordered association
lists with the usual dict semantics (assignment replaces the first entry with
the key in place or appends a fresh entry at the end; deletion removes the
key).  Wall-clock reads (`time.time()`) are modelled by an explicit `t : Nat`
parameter passed to each top-level operation; every read inside one call
returns that `t`.  Stateful methods become functions returning the
(result, new state) pair.
-/

abbrev Str := List Char

/-- `startsWithList needle hay` is true when `needle` is a prefix of `hay`. -/
def startsWithList : Str → Str → Bool
  | [], _ => true
  | _ :: _, [] => false
  | a :: as, b :: bs => a == b && startsWithList as bs

/-- Python substring test `needle in hay` over character lists. -/
def containsSub (needle : Str) : Str → Bool
  | [] => startsWithList needle []
  | c :: t => startsWithList needle (c :: t) || containsSub needle t

/-- Python `str.lower()`.  Only ASCII letters are cased characters in every
string the program puts through it (the lexicons are lowercase ASCII and
Japanese, which has no case), so characterwise ASCII lowering is faithful. -/
def lowerStr (s : Str) : Str := s.map Char.toLower

/-- Helper for Python `str.split()`: accumulates the current word (reversed). -/
def splitWsAux (cur : Str) : Str → List Str
  | [] => if cur.isEmpty then [] else [cur.reverse]
  | c :: t =>
    if c.isWhitespace then
      if cur.isEmpty then splitWsAux [] t else cur.reverse :: splitWsAux [] t
    else splitWsAux (c :: cur) t

/-- Python `str.split()` with no argument: split on whitespace runs, no empty
tokens. -/
def splitWs (s : Str) : List Str := splitWsAux [] s

/-- Python `str.strip()`. -/
def stripWs (s : Str) : Str :=
  ((s.dropWhile Char.isWhitespace).reverse.dropWhile Char.isWhitespace).reverse

/-- Dict lookup `m.get(k)` on an association list. -/
def dictGet {κ α : Type} [BEq κ] : List (κ × α) → κ → Option α
  | [], _ => none
  | p :: rest, k => if p.1 == k then some p.2 else dictGet rest k

/-- Dict assignment `m[k] = v`: replace the first entry with key `k` in place,
or append a fresh entry (Python dicts preserve insertion order). -/
def dictSet {κ α : Type} [BEq κ] : List (κ × α) → κ → α → List (κ × α)
  | [], k, v => [(k, v)]
  | p :: rest, k, v => if p.1 == k then (k, v) :: rest else p :: dictSet rest k v

/-- Dict deletion `del m[k]`. -/
def dictDel {κ α : Type} [BEq κ] (m : List (κ × α)) (k : κ) : List (κ × α) :=
  m.filter (fun p => !(p.1 == k))

/-- One stream context dictionary, `StreamContextService._init_context`
field for field (`src/bot_system/services/context_service.py`). -/
structure StreamCtx where
  title : Str
  start_time : Nat
  duration : Int
  topics : List Str
  mood : Str
  previous_messages : List Str
  viewers : Int
  broadcaster_info : List (Str × Str)
  message_count : Nat
  deriving Repr, DecidableEq

/-- `StreamContextService` state: the configured history bound and the dict of
stream contexts keyed by stream id. -/
structure StreamContextService where
  max_message_history : Nat
  stream_contexts : List (String × StreamCtx)
  default_stream_id : String
  deriving Repr, DecidableEq

/-- The fresh context built by `_init_context` at time `t`. -/
def StreamContextService.defaultCtx (t : Nat) : StreamCtx :=
  { title := ("Test Stream").toList
    start_time := t
    duration := 0
    topics := []
    mood := ("neutral").toList
    previous_messages := []
    viewers := 0
    broadcaster_info := []
    message_count := 0 }

/-- `StreamContextService._init_context(stream_id)` at time `t`. -/
def StreamContextService.init_context (stream_id : String) (t : Nat)
    (s : StreamContextService) : StreamContextService :=
  { s with stream_contexts :=
      dictSet s.stream_contexts stream_id (StreamContextService.defaultCtx t) }

/-- `StreamContextService.__init__(max_message_history)` at time `t`:
stores the bound and initialises the default context. -/
def StreamContextService.new (max_message_history : Nat) (t : Nat) :
    StreamContextService :=
  StreamContextService.init_context "default" t
    { max_message_history := max_message_history
      stream_contexts := []
      default_stream_id := "default" }

/-- The `if stream_id is None: stream_id = self.default_stream_id` prologue
shared by every method. -/
def StreamContextService.resolveId (s : StreamContextService) :
    Option String → String
  | none => s.default_stream_id
  | some sid => sid

/-- The duration recomputation embedded in `get_context`:
`if ctx["start_time"]: ctx["duration"] = time.time() - ctx["start_time"]`
(the guard is Python truthiness of the `start_time` number). -/
def StreamContextService.withDuration (t : Nat) (c : StreamCtx) : StreamCtx :=
  if c.start_time ≠ 0 then { c with duration := (t : Int) - (c.start_time : Int) }
  else c

/-- `StreamContextService.get_context(stream_id)` at time `t`: get-or-create,
then recompute `duration`. -/
def StreamContextService.get_context (stream_id : Option String) (t : Nat)
    (s : StreamContextService) : StreamCtx × StreamContextService :=
  let sid := s.resolveId stream_id
  let s :=
    if (dictGet s.stream_contexts sid).isSome then s
    else StreamContextService.init_context sid t s
  let ctx := (dictGet s.stream_contexts sid).getD (StreamContextService.defaultCtx t)
  let ctx := StreamContextService.withDuration t ctx
  (ctx, { s with stream_contexts := dictSet s.stream_contexts sid ctx })

/-- Topic keywords of a title:
`[word.lower() for word in title.split() if len(word) > 2]`. -/
def titleKeywords (title : Str) : List Str :=
  ((splitWs title).filter (fun w => w.length > 2)).map lowerStr

/-- `StreamContextService.update_title(title, stream_id)` at time `t`.
`list(set(old + keywords))` is modelled as `(old ++ keywords).dedup`; the
iteration order of a Python set is arbitrary, and every property stated below
is order-insensitive (membership only). -/
def StreamContextService.update_title (title : Str) (stream_id : Option String)
    (t : Nat) (s : StreamContextService) : StreamCtx × StreamContextService :=
  let sid := s.resolveId stream_id
  let (ctx, s) := StreamContextService.get_context (some sid) t s
  let ctx := { ctx with title := title }
  let ctx := { ctx with topics := (ctx.topics ++ titleKeywords title).dedup }
  (ctx, { s with stream_contexts := dictSet s.stream_contexts sid ctx })

/-- `StreamContextService.add_message(message, stream_id)` at time `t`.
The history bound is written literally as `10` in the source
(`if len(...) > 10: ... = ...[-10:]`); `self.max_message_history` is not
consulted. -/
def StreamContextService.add_message (message : Str) (stream_id : Option String)
    (t : Nat) (s : StreamContextService) : StreamCtx × StreamContextService :=
  let sid := s.resolveId stream_id
  let (ctx, s) := StreamContextService.get_context (some sid) t s
  let ctx := { ctx with message_count := ctx.message_count + 1 }
  let hist := ctx.previous_messages ++ [message]
  let hist := if hist.length > 10 then hist.drop (hist.length - 10) else hist
  let ctx := { ctx with previous_messages := hist }
  (ctx, { s with stream_contexts := dictSet s.stream_contexts sid ctx })

/-- `StreamContextService.update_viewers(count, stream_id)` at time `t`. -/
def StreamContextService.update_viewers (count : Int) (stream_id : Option String)
    (t : Nat) (s : StreamContextService) : StreamCtx × StreamContextService :=
  let sid := s.resolveId stream_id
  let (ctx, s) := StreamContextService.get_context (some sid) t s
  let ctx := { ctx with viewers := count }
  (ctx, { s with stream_contexts := dictSet s.stream_contexts sid ctx })

/-- `StreamContextService.reset_context(stream_id)` at time `t`:
`_init_context` followed by `get_context`. -/
def StreamContextService.reset_context (stream_id : Option String) (t : Nat)
    (s : StreamContextService) : StreamCtx × StreamContextService :=
  let sid := s.resolveId stream_id
  let s := StreamContextService.init_context sid t s
  StreamContextService.get_context (some sid) t s

/-- The `positive_words` lexicon of `analyze_mood`. -/
def positive_words : List Str :=
  (["楽しい", "嬉しい", "面白い", "すごい", "好き", "最高", "happy", "fun",
    "great"]).map String.toList

/-- The `negative_words` lexicon of `analyze_mood`. -/
def negative_words : List Str :=
  (["難しい", "悲しい", "辛い", "苦しい", "嫌い", "最悪", "sad", "hard",
    "tough"]).map String.toList

/-- The `excited_words` lexicon of `analyze_mood`. -/
def excited_words : List Str :=
  (["わくわく", "興奮", "激アツ", "テンション", "excited", "amazing"]).map
    String.toList

/-- `sum([1 for word in positive_words if word in content_lower])`. -/
def positiveCount (content : Str) : Nat :=
  (positive_words.filter (fun w => containsSub w (lowerStr content))).length

/-- `sum([1 for word in negative_words if word in content_lower])`. -/
def negativeCount (content : Str) : Nat :=
  (negative_words.filter (fun w => containsSub w (lowerStr content))).length

/-- `sum([1 for word in excited_words if word in content_lower])`. -/
def excitedCount (content : Str) : Nat :=
  (excited_words.filter (fun w => containsSub w (lowerStr content))).length

/-- `StreamContextService.analyze_mood(content, stream_id)` at time `t`. -/
def StreamContextService.analyze_mood (content : Str) (stream_id : Option String)
    (t : Nat) (s : StreamContextService) : StreamCtx × StreamContextService :=
  let sid := s.resolveId stream_id
  let (ctx, s) := StreamContextService.get_context (some sid) t s
  let ctx :=
    if excitedCount content > 0 then { ctx with mood := ("excited").toList }
    else if positiveCount content > negativeCount content then
      { ctx with mood := ("positive").toList }
    else if negativeCount content > positiveCount content then
      { ctx with mood := ("negative").toList }
    else if ctx.message_count % 5 == 0 then { ctx with mood := ("neutral").toList }
    else ctx
  (ctx, { s with stream_contexts := dictSet s.stream_contexts sid ctx })

/-- Observable websocket lifecycle events emitted by connection operations. -/
inductive WsEvent where
  | accepted (conn : Nat)
  | closed (conn : Nat) (code : Nat) (reason : Str)
  deriving Repr, DecidableEq

/-- `ConnectionService` state (`src/bot_system/services/connection_service.py`):
connections are opaque ids; `bot_info` maps a connection to its
`connected_at` timestamp. -/
structure ConnectionService where
  max_bot_viewers : Nat
  heartbeat_interval : Nat
  broadcaster : Option Nat
  bot_viewers : List Nat
  bot_info : List (Nat × Nat)
  deriving Repr, DecidableEq

/-- `ConnectionService.__init__`. -/
def ConnectionService.new (max_bot_viewers heartbeat_interval : Nat) :
    ConnectionService :=
  { max_bot_viewers := max_bot_viewers
    heartbeat_interval := heartbeat_interval
    broadcaster := none
    bot_viewers := []
    bot_info := [] }

/-- The close reason used when a second broadcaster connects. -/
def alreadyConnectedReason : Str :=
  ("Another broadcaster is already connected").toList

/-- `ConnectionService.connect_broadcaster(websocket)`: returns the Bool
result, the new state, and the emitted websocket events. -/
def ConnectionService.connect_broadcaster (websocket : Nat)
    (s : ConnectionService) : Bool × ConnectionService × List WsEvent :=
  match s.broadcaster with
  | some _ => (false, s, [WsEvent.closed websocket 1000 alreadyConnectedReason])
  | none =>
    (true, { s with broadcaster := some websocket }, [WsEvent.accepted websocket])

/-- `ConnectionService.disconnect_broadcaster()`. -/
def ConnectionService.disconnect_broadcaster (s : ConnectionService) :
    ConnectionService :=
  { s with broadcaster := none }

/-- `ConnectionService.connect_bot_viewer(websocket)` at time `t`: accepts
unconditionally, appends to the viewer list, records `connected_at`. -/
def ConnectionService.connect_bot_viewer (websocket : Nat) (t : Nat)
    (s : ConnectionService) : Bool × ConnectionService × List WsEvent :=
  (true,
   { s with
      bot_viewers := s.bot_viewers ++ [websocket]
      bot_info := dictSet s.bot_info websocket t },
   [WsEvent.accepted websocket])

/-- `ConnectionService.disconnect_bot_viewer(websocket)`: `list.remove` drops
the first occurrence (guarded by membership), `del` drops the info key. -/
def ConnectionService.disconnect_bot_viewer (websocket : Nat)
    (s : ConnectionService) : ConnectionService :=
  { s with
      bot_viewers :=
        if websocket ∈ s.bot_viewers then s.bot_viewers.erase websocket
        else s.bot_viewers
      bot_info :=
        if (dictGet s.bot_info websocket).isSome then dictDel s.bot_info websocket
        else s.bot_info }

/-- The raw `websocket.send_text` call: which sends raise is abstracted by the
environment parameter `fails`. -/
def wsSend (fails : Nat → Bool) (bot : Nat) : Except Str Unit :=
  if fails bot then Except.error (("send error").toList) else Except.ok ()

/-- `ConnectionService.send_to_bot(bot, message)`: the `try/except` around the
send; a failing send logs and disconnects that bot, propagating nothing.
The second component lists the bots the message actually reached. -/
def ConnectionService.send_to_bot (fails : Nat → Bool) (bot : Nat)
    (s : ConnectionService) : ConnectionService × List Nat :=
  match wsSend fails bot with
  | Except.ok _ => (s, [bot])
  | Except.error _ => (ConnectionService.disconnect_bot_viewer bot s, [])

/-- The `asyncio.gather` over the snapshotted task list in
`broadcast_to_bots`: each task only mutates state for its own bot, so the
serialized left-to-right execution gives the same final state as any
interleaving. -/
def ConnectionService.broadcastAux (fails : Nat → Bool) :
    List Nat → ConnectionService → ConnectionService × List Nat
  | [], s => (s, [])
  | b :: rest, s =>
    let p := ConnectionService.send_to_bot fails b s
    let q := ConnectionService.broadcastAux fails rest p.1
    (q.1, p.2 ++ q.2)

/-- `ConnectionService.broadcast_to_bots(message)`: no-op on an empty viewer
list, otherwise one send task per currently connected viewer. -/
def ConnectionService.broadcast_to_bots (fails : Nat → Bool)
    (s : ConnectionService) : ConnectionService × List Nat :=
  if s.bot_viewers.isEmpty then (s, [])
  else ConnectionService.broadcastAux fails s.bot_viewers s

/-- `ConnectionService.get_bot_count()`. -/
def ConnectionService.get_bot_count (s : ConnectionService) : Nat :=
  s.bot_viewers.length

/-- The `fallback_responses` list of `bot_system.generate_bot_reaction`. -/
def fallback_responses : List Str :=
  (["面白いですね！", "なるほど～", "それは興味深いです！", "へぇ～！",
    "続き気になります！", "わかります！", "すごい！", "応援してます！",
    "どうやってやるんですか？", "初めて見ました！", "もっと教えてください！",
    "それってどういう意味ですか？"]).map String.toList

/-- `ReactionService.generate_reaction` (services version,
`src/bot_system/services/reaction_service.py`): the external completion call
and anything else that can raise inside the `try` block is abstracted by
`outcome`.  On success the response is returned stripped; on any exception the
`except` branch logs and falls off the end of the function, i.e. Python
returns `None`, modelled as `none`. -/
def ReactionService.generate_reaction (outcome : Except Str Str) : Option Str :=
  match outcome with
  | Except.ok r => some (stripWs r)
  | Except.error _ => none

/-- Legacy `bot_system.generate_bot_reaction` (`src/bot_system.py`): on
success the stripped response; on any exception `random.choice` over
`fallback_responses`, with the random draw abstracted as index `pick`. -/
def generate_bot_reaction (outcome : Except Str Str) (pick : Nat) : Str :=
  match outcome with
  | Except.ok r => stripWs r
  | Except.error _ =>
    fallback_responses.getD (pick % fallback_responses.length) []

/-- The mood-determination block of `analyze_mood` (lines 186-195 of
`context_service.py`) as a function of the analysed content and the current
context. -/
def moodApply (content : Str) (ctx : StreamCtx) : StreamCtx :=
  if excitedCount content > 0 then { ctx with mood := ("excited").toList }
  else if positiveCount content > negativeCount content then
    { ctx with mood := ("positive").toList }
  else if negativeCount content > positiveCount content then
    { ctx with mood := ("negative").toList }
  else if ctx.message_count % 5 == 0 then { ctx with mood := ("neutral").toList }
  else ctx

/-- A sequence of broadcaster connect attempts, counting how many were
accepted (returned `true`). -/
def runConnects : List Nat → ConnectionService → Nat × ConnectionService
  | [], s => (0, s)
  | c :: cs, s =>
    let p := ConnectionService.connect_broadcaster c s
    let q := runConnects cs p.2.1
    ((if p.1 then 1 else 0) + q.1, q.2)

/-- One viewer-registry operation. -/
inductive ViewerOp where
  | connect (conn : Nat) (t : Nat)
  | disconnect (conn : Nat)
  deriving Repr, DecidableEq

/-- Apply one viewer-registry operation. -/
def applyViewerOp (s : ConnectionService) : ViewerOp → ConnectionService
  | ViewerOp.connect c t => (ConnectionService.connect_bot_viewer c t s).2.1
  | ViewerOp.disconnect c => ConnectionService.disconnect_bot_viewer c s

/-- Run a sequence of viewer-registry operations. -/
def runViewerOps : List ViewerOp → ConnectionService → ConnectionService
  | [], s => s
  | op :: ops, s => runViewerOps ops (applyViewerOp s op)

/-- A sequence of viewer operations is safe from `s` when no connect is issued
for a connection currently in the viewer list. -/
def safeViewerOps : List ViewerOp → ConnectionService → Bool
  | [], _ => true
  | op :: ops, s =>
    (match op with
     | ViewerOp.connect c _ => !(decide (c ∈ s.bot_viewers))
     | ViewerOp.disconnect _ => true) && safeViewerOps ops (applyViewerOp s op)

/-- Fold `add_message` over a list of messages on one stream. -/
def addMany (msgs : List Str) (sid : String) (t : Nat)
    (s : StreamContextService) : StreamContextService :=
  msgs.foldl (fun st m => (StreamContextService.add_message m (some sid) t st).2) s

/-- Demo registry with an occupied broadcaster slot. -/
def demoOccupied : ConnectionService :=
  { ConnectionService.new 100 30 with broadcaster := some 1 }

/-- Demo registry with an empty broadcaster slot. -/
def demoEmpty : ConnectionService :=
  ConnectionService.new 100 30

/-- Demo registry with three connected viewers. -/
def demoFanout : ConnectionService :=
  { ConnectionService.new 100 30 with
      bot_viewers := [1, 2, 3]
      bot_info := [(1, 10), (2, 20), (3, 30)] }

/-- Demo send-failure environment: only viewer 2 fails. -/
def demoFails (b : Nat) : Bool := b == 2

/-- Demo context store after setting the default stream title to
"Hello World Stream". -/
def demoAfterFirstTitle : StreamContextService :=
  (StreamContextService.update_title (("Hello World Stream").toList)
    (some "default") 0 (StreamContextService.new 10 0)).2

/-- Topic set after the two demo title updates of the topic-accretion
scenario. -/
def demoTopics : List Str :=
  ((StreamContextService.update_title (("New Episode").toList) (some "default") 0
    demoAfterFirstTitle).1).topics

theorem dictGet_dictSet_self {κ α : Type} [BEq κ] [LawfulBEq κ]
    (m : List (κ × α)) (k : κ) (v : α) : dictGet (dictSet m k v) k = some v := by
  induction m with
  | nil => simp [dictGet, dictSet]
  | cons p rest ih =>
    by_cases h : p.1 == k
    · simp [dictGet, dictSet, h]
    · simp only [dictSet, h, Bool.false_eq_true, if_false, dictGet]
      simp only [h, Bool.false_eq_true, if_false, ih]

theorem dictGet_dictSet_ne {κ α : Type} [BEq κ] [LawfulBEq κ]
    (m : List (κ × α)) (k k' : κ) (v : α) (h : k' ≠ k) :
    dictGet (dictSet m k v) k' = dictGet m k' := by
  induction m with
  | nil =>
    have : (k == k') = false := by
      simp [beq_eq_false_iff_ne]
      exact fun e => h e.symm
    simp [dictGet, dictSet, this]
  | cons p rest ih =>
    by_cases hp : p.1 == k
    · have hk : (k == k') = false := by
        simp [beq_eq_false_iff_ne]
        exact fun e => h e.symm
      have hp' : (p.1 == k') = false := by
        have : p.1 = k := by exact eq_of_beq hp
        simp [beq_eq_false_iff_ne, this]
        exact fun e => h e.symm
      simp [dictGet, dictSet, hp, hk, hp']
    · simp only [dictSet, hp, Bool.false_eq_true, if_false, dictGet]
      by_cases hq : p.1 == k'
      · simp [hq]
      · simp only [hq, Bool.false_eq_true, if_false, ih]

theorem dictSet_dictSet_self {κ α : Type} [BEq κ] [LawfulBEq κ]
    (m : List (κ × α)) (k : κ) (v w : α) :
    dictSet (dictSet m k v) k w = dictSet m k w := by
  induction m with
  | nil => simp [dictSet]
  | cons p rest ih =>
    by_cases h : p.1 == k
    · simp [dictSet, h]
    · simp [dictSet, h, ih]

theorem dictGet_dictDel_self {κ α : Type} [BEq κ] [LawfulBEq κ]
    (m : List (κ × α)) (k : κ) : dictGet (dictDel m k) k = none := by
  induction m with
  | nil => simp [dictGet, dictDel]
  | cons p rest ih =>
    by_cases h : p.1 == k
    · simpa [dictDel, List.filter, h] using ih
    · simpa [dictDel, List.filter, h, dictGet] using ih

theorem dictGet_filter_none {κ α : Type} [BEq κ]
    (m : List (κ × α)) (k : κ) (q : κ × α → Bool)
    (h : dictGet m k = none) : dictGet (m.filter q) k = none := by
  induction m with
  | nil => simp [dictGet]
  | cons p rest ih =>
    by_cases hp : p.1 == k
    · simp [dictGet, hp] at h
    · simp only [dictGet, hp, Bool.false_eq_true, if_false] at h
      by_cases hq : q p
      · simpa [List.filter, hq, dictGet, hp] using ih h
      · simpa [List.filter, hq] using ih h

theorem withDuration_frame (t : Nat) (c : StreamCtx) :
    (StreamContextService.withDuration t c).title = c.title ∧
    (StreamContextService.withDuration t c).topics = c.topics ∧
    (StreamContextService.withDuration t c).mood = c.mood ∧
    (StreamContextService.withDuration t c).previous_messages = c.previous_messages ∧
    (StreamContextService.withDuration t c).viewers = c.viewers ∧
    (StreamContextService.withDuration t c).broadcaster_info = c.broadcaster_info ∧
    (StreamContextService.withDuration t c).message_count = c.message_count ∧
    (StreamContextService.withDuration t c).start_time = c.start_time := by
  unfold StreamContextService.withDuration
  split <;> simp

theorem withDuration_defaultCtx (t : Nat) :
    StreamContextService.withDuration t (StreamContextService.defaultCtx t) =
      StreamContextService.defaultCtx t := by
  unfold StreamContextService.withDuration StreamContextService.defaultCtx
  split <;> simp

theorem get_context_present (s : StreamContextService) (sid : String) (t : Nat)
    (c : StreamCtx) (h : dictGet s.stream_contexts sid = some c) :
    StreamContextService.get_context (some sid) t s =
      (StreamContextService.withDuration t c,
       { s with stream_contexts :=
           dictSet s.stream_contexts sid (StreamContextService.withDuration t c) }) := by
  unfold StreamContextService.get_context
  simp [StreamContextService.resolveId, h]

theorem get_context_absent (s : StreamContextService) (sid : String) (t : Nat)
    (h : dictGet s.stream_contexts sid = none) :
    StreamContextService.get_context (some sid) t s =
      (StreamContextService.defaultCtx t,
       { s with stream_contexts :=
           dictSet s.stream_contexts sid (StreamContextService.defaultCtx t) }) := by
  unfold StreamContextService.get_context StreamContextService.init_context
  simp [StreamContextService.resolveId, h, dictGet_dictSet_self,
    withDuration_defaultCtx, dictSet_dictSet_self]

theorem reset_context_eq (s : StreamContextService) (sid : String) (t : Nat) :
    StreamContextService.reset_context (some sid) t s =
      (StreamContextService.defaultCtx t,
       { s with stream_contexts :=
           dictSet s.stream_contexts sid (StreamContextService.defaultCtx t) }) := by
  unfold StreamContextService.reset_context
  simp only [StreamContextService.resolveId]
  have h : dictGet (StreamContextService.init_context sid t s).stream_contexts sid
      = some (StreamContextService.defaultCtx t) := by
    unfold StreamContextService.init_context
    exact dictGet_dictSet_self _ _ _
  rw [get_context_present _ _ _ _ h]
  unfold StreamContextService.init_context
  simp [withDuration_defaultCtx, dictSet_dictSet_self]

theorem analyze_mood_eq (s : StreamContextService) (sid : String)
    (content : Str) (t : Nat) :
    StreamContextService.analyze_mood content (some sid) t s =
      (moodApply content (StreamContextService.get_context (some sid) t s).1,
       { (StreamContextService.get_context (some sid) t s).2 with
           stream_contexts :=
             dictSet (StreamContextService.get_context (some sid) t s).2.stream_contexts
               sid
               (moodApply content
                 (StreamContextService.get_context (some sid) t s).1) }) := by
  unfold StreamContextService.analyze_mood moodApply
  simp only [StreamContextService.resolveId]

theorem moodApply_mood (content : Str) (ctx : StreamCtx) :
    (moodApply content ctx).mood =
      (if excitedCount content > 0 then ("excited").toList
       else if positiveCount content > negativeCount content then
         ("positive").toList
       else if negativeCount content > positiveCount content then
         ("negative").toList
       else if ctx.message_count % 5 = 0 then ("neutral").toList
       else ctx.mood) := by
  unfold moodApply
  by_cases h1 : excitedCount content > 0
  · simp [h1]
  · by_cases h2 : positiveCount content > negativeCount content
    · simp [h1, h2]
    · by_cases h3 : negativeCount content > positiveCount content
      · simp [h1, h2, h3]
      · by_cases h4 : ctx.message_count % 5 = 0
        · simp [h1, h2, h3, h4]
        · simp [h1, h2, h3, h4]

theorem moodApply_frame (content : Str) (ctx : StreamCtx) :
    (moodApply content ctx).title = ctx.title ∧
    (moodApply content ctx).topics = ctx.topics ∧
    (moodApply content ctx).previous_messages = ctx.previous_messages ∧
    (moodApply content ctx).viewers = ctx.viewers ∧
    (moodApply content ctx).broadcaster_info = ctx.broadcaster_info ∧
    (moodApply content ctx).message_count = ctx.message_count ∧
    (moodApply content ctx).start_time = ctx.start_time ∧
    (moodApply content ctx).duration = ctx.duration := by
  unfold moodApply
  split <;> [skip; split <;> [skip; split <;> [skip; split]]] <;> simp

theorem update_title_eq (s : StreamContextService) (sid : String)
    (title : Str) (t : Nat) :
    StreamContextService.update_title title (some sid) t s =
      ({ (StreamContextService.get_context (some sid) t s).1 with
           title := title
           topics :=
             (((StreamContextService.get_context (some sid) t s).1).topics ++
               titleKeywords title).dedup },
       { (StreamContextService.get_context (some sid) t s).2 with
           stream_contexts :=
             dictSet (StreamContextService.get_context (some sid) t s).2.stream_contexts
               sid
               { (StreamContextService.get_context (some sid) t s).1 with
                   title := title
                   topics :=
                     (((StreamContextService.get_context (some sid) t s).1).topics ++
                       titleKeywords title).dedup } }) := by
  unfold StreamContextService.update_title
  simp only [StreamContextService.resolveId]

theorem disconnect_bot_viewer_viewers (b : Nat) (s : ConnectionService) :
    (ConnectionService.disconnect_bot_viewer b s).bot_viewers =
      s.bot_viewers.erase b := by
  unfold ConnectionService.disconnect_bot_viewer
  by_cases h : b ∈ s.bot_viewers
  · simp [h]
  · simp [h, List.erase_of_not_mem h]

theorem disconnect_bot_viewer_info_self (b : Nat) (s : ConnectionService) :
    dictGet (ConnectionService.disconnect_bot_viewer b s).bot_info b = none := by
  unfold ConnectionService.disconnect_bot_viewer
  by_cases h : (dictGet s.bot_info b).isSome
  · simp [h, dictGet_dictDel_self]
  · have hn : dictGet s.bot_info b = none := by
      cases hh : dictGet s.bot_info b <;> simp_all
    simp [h, hn]

theorem disconnect_bot_viewer_info_mono (b c : Nat) (s : ConnectionService)
    (h : dictGet s.bot_info b = none) :
    dictGet (ConnectionService.disconnect_bot_viewer c s).bot_info b = none := by
  unfold ConnectionService.disconnect_bot_viewer
  by_cases hc : (dictGet s.bot_info c).isSome
  · have := dictGet_filter_none s.bot_info b (fun p => !(p.1 == c)) h
    simpa [hc, dictDel] using this
  · simp [hc, h]

theorem send_to_bot_eq (fails : Nat → Bool) (b : Nat) (s : ConnectionService) :
    ConnectionService.send_to_bot fails b s =
      (if fails b then (ConnectionService.disconnect_bot_viewer b s, ([] : List Nat))
       else (s, [b])) := by
  unfold ConnectionService.send_to_bot wsSend
  by_cases h : fails b <;> simp [h]

theorem broadcastAux_delivered (fails : Nat → Bool) (tasks : List Nat) :
    ∀ (s : ConnectionService),
      (ConnectionService.broadcastAux fails tasks s).2 =
        tasks.filter (fun b => !fails b) := by
  induction tasks with
  | nil => intro s; simp [ConnectionService.broadcastAux]
  | cons hd tl ih =>
    intro s
    by_cases h : fails hd
    · simp [ConnectionService.broadcastAux, send_to_bot_eq, h, ih]
    · simp [ConnectionService.broadcastAux, send_to_bot_eq, h, ih]

theorem broadcastAux_viewers (fails : Nat → Bool) (tasks : List Nat) :
    ∀ (s : ConnectionService), s.bot_viewers.Nodup →
      (ConnectionService.broadcastAux fails tasks s).1.bot_viewers =
        s.bot_viewers.filter (fun b => !(fails b && decide (b ∈ tasks))) := by
  induction tasks with
  | nil =>
    intro s hnd
    simp [ConnectionService.broadcastAux]
  | cons hd tl ih =>
    intro s hnd
    by_cases h : fails hd
    · have hv : (ConnectionService.disconnect_bot_viewer hd s).bot_viewers =
          s.bot_viewers.erase hd := disconnect_bot_viewer_viewers hd s
      have hnd' : (ConnectionService.disconnect_bot_viewer hd s).bot_viewers.Nodup := by
        rw [hv]; exact hnd.erase hd
      have step := ih (ConnectionService.disconnect_bot_viewer hd s) hnd'
      simp only [ConnectionService.broadcastAux, send_to_bot_eq, h, if_true]
      rw [step, hv, hnd.erase_eq_filter hd, List.filter_filter]
      refine List.filter_congr ?_
      intro x hx
      by_cases hxh : x = hd
      · subst hxh; simp [h]
      · simp [hxh, List.mem_cons]
    · have hb : fails hd = false := by
        cases hfb : fails hd <;> simp_all
      simp only [ConnectionService.broadcastAux, send_to_bot_eq, hb,
        Bool.false_eq_true, if_false]
      rw [ih s hnd]
      refine List.filter_congr ?_
      intro x hx
      by_cases hxh : x = hd
      · subst hxh; simp [hb]
      · simp [hxh, List.mem_cons]

theorem broadcastAux_info_mono (fails : Nat → Bool) (tasks : List Nat) :
    ∀ (s : ConnectionService) (b : Nat), dictGet s.bot_info b = none →
      dictGet (ConnectionService.broadcastAux fails tasks s).1.bot_info b = none := by
  induction tasks with
  | nil => intro s b h; simpa [ConnectionService.broadcastAux] using h
  | cons hd tl ih =>
    intro s b h
    by_cases hf : fails hd
    · simp only [ConnectionService.broadcastAux, send_to_bot_eq, hf, if_true]
      exact ih _ b (disconnect_bot_viewer_info_mono b hd s h)
    · have hb : fails hd = false := by
        cases hfb : fails hd <;> simp_all
      simp only [ConnectionService.broadcastAux, send_to_bot_eq, hb,
        Bool.false_eq_true, if_false]
      exact ih s b h

theorem broadcastAux_info_none (fails : Nat → Bool) (tasks : List Nat) :
    ∀ (s : ConnectionService) (b : Nat), b ∈ tasks → fails b = true →
      dictGet (ConnectionService.broadcastAux fails tasks s).1.bot_info b = none := by
  induction tasks with
  | nil => intro s b hb hf; simp at hb
  | cons hd tl ih =>
    intro s b hb hf
    rcases List.mem_cons.mp hb with hbh | hbt
    · subst hbh
      simp only [ConnectionService.broadcastAux, send_to_bot_eq, hf, if_true]
      exact broadcastAux_info_mono fails tl _ b (disconnect_bot_viewer_info_self b s)
    · by_cases hfh : fails hd
      · simp only [ConnectionService.broadcastAux, send_to_bot_eq, hfh, if_true]
        exact ih _ b hbt hf
      · have hb0 : fails hd = false := by
          cases hfb : fails hd <;> simp_all
        simp only [ConnectionService.broadcastAux, send_to_bot_eq, hb0,
          Bool.false_eq_true, if_false]
        exact ih s b hbt hf

theorem runConnects_occupied (cs : List Nat) :
    ∀ (s : ConnectionService), s.broadcaster.isSome = true →
      runConnects cs s = (0, s) := by
  induction cs with
  | nil => intro s h; rfl
  | cons c cs ih =>
    intro s h
    rcases ho : s.broadcaster with _ | b
    · rw [ho] at h; simp at h
    · simp [runConnects, ConnectionService.connect_broadcaster, ho, ih s h]

/-- C2: when a broadcaster is already present, `connect_broadcaster` returns
`false`, closes the new connection with a reason containing "already
connected", and leaves the whole registry state unchanged; when the slot is
empty it stores the connection as sole broadcaster and returns `true`.
Consequently over any sequence of connect attempts at most one is accepted
(and none when the slot is already occupied). -/
theorem connect_broadcaster_exclusive (s : ConnectionService) (ws : Nat)
    (attempts : List Nat) :
    (s.broadcaster.isSome = true →
      ConnectionService.connect_broadcaster ws s =
        (false, s, [WsEvent.closed ws 1000 alreadyConnectedReason]) ∧
      containsSub (("already connected").toList) alreadyConnectedReason = true) ∧
    (s.broadcaster = none →
      ConnectionService.connect_broadcaster ws s =
        (true, { s with broadcaster := some ws }, [WsEvent.accepted ws])) ∧
    (s.broadcaster = none → (runConnects attempts s).1 ≤ 1) ∧
    (s.broadcaster.isSome = true → (runConnects attempts s).1 = 0) := by
  refine ⟨?_, ?_, ?_, ?_⟩
  · intro h
    rcases ho : s.broadcaster with _ | b
    · rw [ho] at h; simp at h
    · exact ⟨by simp [ConnectionService.connect_broadcaster, ho], by decide⟩
  · intro h
    simp [ConnectionService.connect_broadcaster, h]
  · intro h
    cases attempts with
    | nil => simp [runConnects]
    | cons c cs =>
      have hocc : ({ s with broadcaster := some c } :
          ConnectionService).broadcaster.isSome = true := by simp
      simp [runConnects, ConnectionService.connect_broadcaster, h,
        runConnects_occupied cs _ hocc]
  · intro h
    simp [runConnects_occupied attempts s h]

theorem connect_broadcaster_exclusive_witness :
    ConnectionService.connect_broadcaster 2 demoOccupied =
      (false, demoOccupied, [WsEvent.closed 2 1000 alreadyConnectedReason]) ∧
    containsSub (("already connected").toList) alreadyConnectedReason = true ∧
    ConnectionService.connect_broadcaster 7 demoEmpty =
      (true, { demoEmpty with broadcaster := some 7 }, [WsEvent.accepted 7]) ∧
    (runConnects [3, 4, 5] demoEmpty).1 ≤ 1 ∧
    (runConnects [3, 4] demoOccupied).1 = 0 := by
  refine ⟨((connect_broadcaster_exclusive demoOccupied 2 []).1 (by decide)).1,
    ((connect_broadcaster_exclusive demoOccupied 2 []).1 (by decide)).2,
    (connect_broadcaster_exclusive demoEmpty 7 []).2.1 (by decide),
    (connect_broadcaster_exclusive demoEmpty 7 [3, 4, 5]).2.2.1 (by decide),
    (connect_broadcaster_exclusive demoOccupied 2 [3, 4]).2.2.2 (by decide)⟩

/-- C1: the claim says the history capacity is the configured
`max_message_history` (default 10).  In the code the `add_message` bound is
hard-wired to `10` and the stored `max_message_history` is never consulted:
with the bound configured to 3, four `add_message` calls leave a history of
size 4 (all four messages), not `min(3+1, 3) = 3`. -/
theorem history_cap_ignores_configured_bound :
    (StreamContextService.new 3 0).max_message_history = 3 ∧
    (dictGet (addMany ((["m1", "m2", "m3", "m4"]).map String.toList) "s" 0
        (StreamContextService.new 3 0)).stream_contexts "s").map
      (fun c => c.previous_messages.length) = some 4 ∧
    (dictGet (addMany ((["m1", "m2", "m3", "m4"]).map String.toList) "s" 0
        (StreamContextService.new 3 0)).stream_contexts "s").map
      (fun c => c.previous_messages) =
      some ((["m1", "m2", "m3", "m4"]).map String.toList) ∧
    min (3 + 1) 3 = 3 ∧
    ¬ ((dictGet (addMany ((["m1", "m2", "m3", "m4"]).map String.toList) "s" 0
        (StreamContextService.new 3 0)).stream_contexts "s").map
      (fun c => c.previous_messages.length) = some (min (3 + 1) 3)) := by
  decide

/-- C4: the claim says the reaction generator substitutes one of a fixed set
of canned fallback strings on failure.  The services implementation
(`ReactionService.generate_reaction`) catches the exception, logs, and falls
off the end of the function, returning `None` — not a string; only the legacy
`bot_system.generate_bot_reaction` returns a member of the 12-element
fallback list. -/
theorem generate_reaction_error_returns_none :
    ReactionService.generate_reaction (Except.error (("boom").toList)) = none ∧
    fallback_responses.length = 12 ∧
    generate_bot_reaction (Except.error (("boom").toList)) 0 ∈ fallback_responses ∧
    generate_bot_reaction (Except.error (("boom").toList)) 25 ∈ fallback_responses := by
  decide

/-- C3: fan-out isolation — for any send-failure environment `fails`,
`broadcast_to_bots` (a total function: per-viewer failures are caught inside
`send_to_bot` and never propagate) delivers the message exactly to the
viewers whose send succeeds, and by the end of the call every viewer whose
send failed has been removed from the viewer list and its `bot_info` entry
deleted. -/
theorem broadcast_fanout_isolation (s : ConnectionService) (fails : Nat → Bool)
    (hnd : s.bot_viewers.Nodup) :
    (ConnectionService.broadcast_to_bots fails s).2 =
      s.bot_viewers.filter (fun b => !fails b) ∧
    (ConnectionService.broadcast_to_bots fails s).1.bot_viewers =
      s.bot_viewers.filter (fun b => !fails b) ∧
    (∀ b ∈ s.bot_viewers, fails b = true →
      b ∉ (ConnectionService.broadcast_to_bots fails s).1.bot_viewers ∧
      dictGet (ConnectionService.broadcast_to_bots fails s).1.bot_info b = none) := by
  unfold ConnectionService.broadcast_to_bots
  by_cases he : s.bot_viewers.isEmpty = true
  · have hnil : s.bot_viewers = [] := List.isEmpty_iff.mp he
    simp [he, hnil]
  · have he' : s.bot_viewers.isEmpty = false := by
      cases hh : s.bot_viewers.isEmpty <;> simp_all
    simp only [he', Bool.false_eq_true, if_false]
    refine ⟨broadcastAux_delivered fails s.bot_viewers s, ?_, ?_⟩
    · rw [broadcastAux_viewers fails s.bot_viewers s hnd]
      refine List.filter_congr ?_
      intro x hx
      simp [hx]
    · intro b hb hf
      constructor
      · rw [broadcastAux_viewers fails s.bot_viewers s hnd]
        simp [List.mem_filter, hf]
      · exact broadcastAux_info_none fails s.bot_viewers s b hb hf

theorem broadcast_fanout_isolation_witness :
    (ConnectionService.broadcast_to_bots demoFails demoFanout).2 = [1, 3] ∧
    (ConnectionService.broadcast_to_bots demoFails demoFanout).1.bot_viewers =
      [1, 3] ∧
    2 ∉ (ConnectionService.broadcast_to_bots demoFails demoFanout).1.bot_viewers ∧
    dictGet (ConnectionService.broadcast_to_bots demoFails demoFanout).1.bot_info 2 =
      none := by
  have h := broadcast_fanout_isolation demoFanout demoFails (by decide)
  refine ⟨?_, ?_, ?_, ?_⟩
  · rw [h.1]; decide
  · rw [h.2.1]; decide
  · exact (h.2.2 2 (by decide) (by decide)).1
  · exact (h.2.2 2 (by decide) (by decide)).2

/-- C9 counterexample: `connect_bot_viewer` appends unconditionally, so
invoking it twice with the same connection leaves the connection twice in the
viewer list: the collection does contain duplicates and `get_bot_count`
returns 2 while only one distinct connection is present, refuting the claim
as stated. -/
theorem viewer_duplicate_counterexample :
    ((ConnectionService.connect_bot_viewer 7 1
        (ConnectionService.connect_bot_viewer 7 0 demoEmpty).2.1).2.1).bot_viewers =
      [7, 7] ∧
    ¬ ((ConnectionService.connect_bot_viewer 7 1
        (ConnectionService.connect_bot_viewer 7 0 demoEmpty).2.1).2.1).bot_viewers.Nodup ∧
    ConnectionService.get_bot_count
      ((ConnectionService.connect_bot_viewer 7 1
        (ConnectionService.connect_bot_viewer 7 0 demoEmpty).2.1).2.1) = 2 ∧
    ((ConnectionService.connect_bot_viewer 7 1
        (ConnectionService.connect_bot_viewer 7 0 demoEmpty).2.1).2.1).bot_viewers.dedup.length =
      1 := by
  decide

/-- C9 (amended): provided `connect_bot_viewer` is never invoked with a
connection currently in the viewer list, the viewer list never contains
duplicates over any sequence of connect/disconnect operations, and
`get_bot_count` equals the number of distinct currently connected viewers. -/
theorem viewer_registry_nodup_invariant (ops : List ViewerOp)
    (s : ConnectionService) (hnd : s.bot_viewers.Nodup)
    (hsafe : safeViewerOps ops s = true) :
    (runViewerOps ops s).bot_viewers.Nodup ∧
    ConnectionService.get_bot_count (runViewerOps ops s) =
      (runViewerOps ops s).bot_viewers.dedup.length := by
  induction ops generalizing s with
  | nil => exact ⟨hnd, by simp [ConnectionService.get_bot_count, hnd.dedup, runViewerOps]⟩
  | cons op ops ih =>
    rcases op with ⟨c, t⟩ | c
    · simp only [safeViewerOps, Bool.and_eq_true] at hsafe
      have hmem : c ∉ s.bot_viewers := by
        have := hsafe.1
        simp at this
        exact this
      have hnd' : ((applyViewerOp s (ViewerOp.connect c t)).bot_viewers).Nodup := by
        simp [applyViewerOp, ConnectionService.connect_bot_viewer,
          List.nodup_append, hnd, hmem]
      exact ih _ hnd' hsafe.2
    · simp only [safeViewerOps, Bool.and_eq_true] at hsafe
      have hnd' : ((applyViewerOp s (ViewerOp.disconnect c)).bot_viewers).Nodup := by
        rw [applyViewerOp, disconnect_bot_viewer_viewers]
        exact hnd.erase c
      exact ih _ hnd' hsafe.2

theorem viewer_registry_nodup_invariant_witness :
    (runViewerOps [ViewerOp.connect 1 0, ViewerOp.connect 2 1,
        ViewerOp.disconnect 1, ViewerOp.connect 1 2] demoEmpty).bot_viewers.Nodup ∧
    ConnectionService.get_bot_count
        (runViewerOps [ViewerOp.connect 1 0, ViewerOp.connect 2 1,
          ViewerOp.disconnect 1, ViewerOp.connect 1 2] demoEmpty) =
      (runViewerOps [ViewerOp.connect 1 0, ViewerOp.connect 2 1,
        ViewerOp.disconnect 1, ViewerOp.connect 1 2] demoEmpty).bot_viewers.dedup.length :=
  viewer_registry_nodup_invariant
    [ViewerOp.connect 1 0, ViewerOp.connect 2 1, ViewerOp.disconnect 1,
      ViewerOp.connect 1 2] demoEmpty (by decide) (by decide)

/-- C5: mood hysteresis — on a tie input (no excited hit and equal positive
and negative counts, including 0/0) `analyze_mood` yields `neutral` exactly
when the context's current `message_count` (the value left by the most recent
`add_message` increment) is a multiple of 5, and otherwise leaves the mood at
its prior value. -/
theorem analyze_mood_tie_hysteresis (s : StreamContextService) (sid : String)
    (content : Str) (t : Nat)
    (hex : excitedCount content = 0)
    (htie : positiveCount content = negativeCount content) :
    ((StreamContextService.analyze_mood content (some sid) t s).1).mood =
      (if ((StreamContextService.get_context (some sid) t s).1).message_count % 5 = 0
       then ("neutral").toList
       else ((StreamContextService.get_context (some sid) t s).1).mood) := by
  have h1 : ¬ excitedCount content > 0 := by omega
  have h2 : ¬ positiveCount content > negativeCount content := by omega
  have h3 : ¬ negativeCount content > positiveCount content := by omega
  rw [analyze_mood_eq]
  dsimp only
  rw [moodApply_mood, if_neg h1, if_neg h2, if_neg h3]

theorem analyze_mood_tie_hysteresis_witness :
    excitedCount (("xyz").toList) = 0 ∧
    positiveCount (("xyz").toList) = negativeCount (("xyz").toList) ∧
    ((StreamContextService.analyze_mood (("xyz").toList) (some "default") 0
        (StreamContextService.new 10 0)).1).mood = ("neutral").toList := by
  refine ⟨by decide, by decide, ?_⟩
  have h := analyze_mood_tie_hysteresis (StreamContextService.new 10 0) "default"
    (("xyz").toList) 0 (by decide) (by decide)
  rw [h]
  decide

/-- C6: mood determinism — `analyze_mood` counts, case-insensitively, how
many words of each fixed lexicon occur as substrings of the content and
applies the ordered rules: any excited hit gives `excited`; else a strict
positive majority gives `positive`; else a strict negative majority gives
`negative`.  In particular "this is amazing" yields `excited` and
"it was sad and hard" yields `negative`, regardless of the prior mood. -/
theorem analyze_mood_lexicon_rules (s : StreamContextService) (sid : String)
    (content : Str) (t : Nat) :
    (excitedCount content > 0 →
      ((StreamContextService.analyze_mood content (some sid) t s).1).mood =
        ("excited").toList) ∧
    (excitedCount content = 0 →
      positiveCount content > negativeCount content →
      ((StreamContextService.analyze_mood content (some sid) t s).1).mood =
        ("positive").toList) ∧
    (excitedCount content = 0 →
      negativeCount content > positiveCount content →
      ((StreamContextService.analyze_mood content (some sid) t s).1).mood =
        ("negative").toList) ∧
    ((StreamContextService.analyze_mood (("this is amazing").toList)
        (some sid) t s).1).mood = ("excited").toList ∧
    ((StreamContextService.analyze_mood (("it was sad and hard").toList)
        (some sid) t s).1).mood = ("negative").toList := by
  have hm : ∀ (c : Str),
      ((StreamContextService.analyze_mood c (some sid) t s).1).mood =
        (if excitedCount c > 0 then ("excited").toList
         else if positiveCount c > negativeCount c then ("positive").toList
         else if negativeCount c > positiveCount c then ("negative").toList
         else if ((StreamContextService.get_context (some sid) t s).1).message_count % 5 = 0
           then ("neutral").toList
         else ((StreamContextService.get_context (some sid) t s).1).mood) := by
    intro c
    rw [analyze_mood_eq]
    dsimp only
    rw [moodApply_mood]
  refine ⟨?_, ?_, ?_, ?_, ?_⟩
  · intro h
    rw [hm content, if_pos h]
  · intro h0 h
    rw [hm content, if_neg (by omega), if_pos h]
  · intro h0 h
    rw [hm content, if_neg (by omega), if_neg (by omega), if_pos h]
  · rw [hm (("this is amazing").toList), if_pos (by decide)]
  · rw [hm (("it was sad and hard").toList), if_neg (by decide),
      if_neg (by decide), if_pos (by decide)]

theorem analyze_mood_lexicon_rules_witness :
    ((StreamContextService.analyze_mood (("this is amazing").toList)
        (some "default") 0 demoAfterFirstTitle).1).mood = ("excited").toList ∧
    ((StreamContextService.analyze_mood (("happy day").toList)
        (some "default") 0 demoAfterFirstTitle).1).mood = ("positive").toList ∧
    ((StreamContextService.analyze_mood (("it was sad and hard").toList)
        (some "default") 0 demoAfterFirstTitle).1).mood = ("negative").toList := by
  refine ⟨(analyze_mood_lexicon_rules demoAfterFirstTitle "default"
      (("this is amazing").toList) 0).2.2.2.1,
    (analyze_mood_lexicon_rules demoAfterFirstTitle "default"
      (("happy day").toList) 0).2.1 (by decide) (by decide),
    (analyze_mood_lexicon_rules demoAfterFirstTitle "default"
      (("it was sad and hard").toList) 0).2.2.2.2⟩

/-- C7: topic accretion — `update_title` sets the title and replaces the
topic set by its union with the lowercased whitespace tokens of the new
title of length > 2; membership in the old topic set is preserved by every
update (monotone growth), the updated context is what is stored for the
stream id, and the two-step "Hello World Stream" / "New Episode" scenario
accumulates all five topics. -/
theorem update_title_topic_accretion (s : StreamContextService) (sid : String)
    (title : Str) (t : Nat) (x : Str) :
    ((StreamContextService.update_title title (some sid) t s).1).title = title ∧
    (x ∈ ((StreamContextService.update_title title (some sid) t s).1).topics ↔
      x ∈ ((StreamContextService.get_context (some sid) t s).1).topics ∨
      x ∈ titleKeywords title) ∧
    (x ∈ ((StreamContextService.get_context (some sid) t s).1).topics →
      x ∈ ((StreamContextService.update_title title (some sid) t s).1).topics) ∧
    dictGet ((StreamContextService.update_title title (some sid) t s).2).stream_contexts
        sid =
      some ((StreamContextService.update_title title (some sid) t s).1) ∧
    (("hello").toList ∈ demoTopics ∧ ("world").toList ∈ demoTopics ∧
     ("stream").toList ∈ demoTopics ∧ ("new").toList ∈ demoTopics ∧
     ("episode").toList ∈ demoTopics) := by
  refine ⟨?_, ?_, ?_, ?_, by decide⟩
  · rw [update_title_eq]
  · rw [update_title_eq]
    dsimp only
    simp [List.mem_dedup, List.mem_append]
  · intro hx
    rw [update_title_eq]
    dsimp only
    simp only [List.mem_dedup, List.mem_append]
    exact Or.inl hx
  · rw [update_title_eq]
    dsimp only
    exact dictGet_dictSet_self _ _ _

theorem update_title_topic_accretion_witness :
    ("hello").toList ∈
      ((StreamContextService.get_context (some "default") 0 demoAfterFirstTitle).1).topics ∧
    ("hello").toList ∈
      ((StreamContextService.update_title (("New Episode").toList) (some "default") 0
        demoAfterFirstTitle).1).topics := by
  have h := update_title_topic_accretion demoAfterFirstTitle "default"
    (("New Episode").toList) 0 (("hello").toList)
  exact ⟨by decide, h.2.2.1 (by decide)⟩

/-- C8: `reset_context` reinitializes every field of the stream's context to
its default value (title, topics, mood, history, viewers, broadcaster info,
message count, with a fresh `start_time` and `duration` 0), keeps the stream
id present in the store, and two consecutive resets produce contexts
identical in every field except `start_time` (and the derived `duration`,
which is 0 in both). -/
theorem reset_context_reinitializes (s : StreamContextService) (sid : String)
    (t1 t2 : Nat) :
    ((StreamContextService.reset_context (some sid) t1 s).1).title =
      ("Test Stream").toList ∧
    ((StreamContextService.reset_context (some sid) t1 s).1).topics = [] ∧
    ((StreamContextService.reset_context (some sid) t1 s).1).mood =
      ("neutral").toList ∧
    ((StreamContextService.reset_context (some sid) t1 s).1).previous_messages = [] ∧
    ((StreamContextService.reset_context (some sid) t1 s).1).viewers = 0 ∧
    ((StreamContextService.reset_context (some sid) t1 s).1).broadcaster_info = [] ∧
    ((StreamContextService.reset_context (some sid) t1 s).1).message_count = 0 ∧
    ((StreamContextService.reset_context (some sid) t1 s).1).start_time = t1 ∧
    ((StreamContextService.reset_context (some sid) t1 s).1).duration = 0 ∧
    dictGet ((StreamContextService.reset_context (some sid) t1 s).2).stream_contexts
        sid =
      some ((StreamContextService.reset_context (some sid) t1 s).1) ∧
    ((StreamContextService.reset_context (some sid) t2
        (StreamContextService.reset_context (some sid) t1 s).2).1).title =
      ((StreamContextService.reset_context (some sid) t1 s).1).title ∧
    ((StreamContextService.reset_context (some sid) t2
        (StreamContextService.reset_context (some sid) t1 s).2).1).topics =
      ((StreamContextService.reset_context (some sid) t1 s).1).topics ∧
    ((StreamContextService.reset_context (some sid) t2
        (StreamContextService.reset_context (some sid) t1 s).2).1).mood =
      ((StreamContextService.reset_context (some sid) t1 s).1).mood ∧
    ((StreamContextService.reset_context (some sid) t2
        (StreamContextService.reset_context (some sid) t1 s).2).1).previous_messages =
      ((StreamContextService.reset_context (some sid) t1 s).1).previous_messages ∧
    ((StreamContextService.reset_context (some sid) t2
        (StreamContextService.reset_context (some sid) t1 s).2).1).viewers =
      ((StreamContextService.reset_context (some sid) t1 s).1).viewers ∧
    ((StreamContextService.reset_context (some sid) t2
        (StreamContextService.reset_context (some sid) t1 s).2).1).broadcaster_info =
      ((StreamContextService.reset_context (some sid) t1 s).1).broadcaster_info ∧
    ((StreamContextService.reset_context (some sid) t2
        (StreamContextService.reset_context (some sid) t1 s).2).1).message_count =
      ((StreamContextService.reset_context (some sid) t1 s).1).message_count ∧
    ((StreamContextService.reset_context (some sid) t2
        (StreamContextService.reset_context (some sid) t1 s).2).1).start_time = t2 := by
  simp only [reset_context_eq]
  simp [StreamContextService.defaultCtx, dictGet_dictSet_self]

/-- C10: frame property of `analyze_mood` — for a stream id already present
in the store, the call changes at most the `mood` (and the `duration`
recomputed by the embedded `get_context` read) of that stream's context:
title, topics, history, message count, viewers, broadcaster info and start
time are unchanged, no other stream's context is affected, and the
store-level fields are untouched. -/
theorem analyze_mood_frame (s : StreamContextService) (sid : String)
    (content : Str) (t : Nat) (c : StreamCtx)
    (hc : dictGet s.stream_contexts sid = some c) :
    ((StreamContextService.analyze_mood content (some sid) t s).2).max_message_history =
      s.max_message_history ∧
    ((StreamContextService.analyze_mood content (some sid) t s).2).default_stream_id =
      s.default_stream_id ∧
    (∀ other : String, other ≠ sid →
      dictGet ((StreamContextService.analyze_mood content (some sid) t s).2).stream_contexts
          other =
        dictGet s.stream_contexts other) ∧
    (∃ c', dictGet ((StreamContextService.analyze_mood content (some sid) t s).2).stream_contexts
          sid =
        some c' ∧
      c'.title = c.title ∧ c'.topics = c.topics ∧
      c'.previous_messages = c.previous_messages ∧
      c'.message_count = c.message_count ∧ c'.viewers = c.viewers ∧
      c'.broadcaster_info = c.broadcaster_info ∧ c'.start_time = c.start_time) := by
  have hg := get_context_present s sid t c hc
  rw [analyze_mood_eq, hg]
  dsimp only
  rw [dictSet_dictSet_self]
  refine ⟨rfl, rfl, ?_, ?_⟩
  · intro other hother
    exact dictGet_dictSet_ne _ _ _ _ hother
  · refine ⟨moodApply content (StreamContextService.withDuration t c),
      dictGet_dictSet_self _ _ _, ?_⟩
    obtain ⟨f1, f2, f3, f4, f5, f6, f7, f8⟩ :=
      moodApply_frame content (StreamContextService.withDuration t c)
    obtain ⟨w1, w2, w3, w4, w5, w6, w7, w8⟩ := withDuration_frame t c
    exact ⟨by rw [f1, w1], by rw [f2, w2], by rw [f3, w4], by rw [f6, w7],
      by rw [f4, w5], by rw [f5, w6], by rw [f7, w8]⟩

theorem analyze_mood_frame_witness :
    dictGet (StreamContextService.new 10 0).stream_contexts "default" =
      some (StreamContextService.defaultCtx 0) ∧
    ((StreamContextService.analyze_mood (("hi all").toList) (some "default") 3
        (StreamContextService.new 10 0)).2).max_message_history = 10 ∧
    dictGet ((StreamContextService.analyze_mood (("hi all").toList) (some "default") 3
        (StreamContextService.new 10 0)).2).stream_contexts "other" =
      dictGet (StreamContextService.new 10 0).stream_contexts "other" ∧
    (dictGet ((StreamContextService.analyze_mood (("hi all").toList) (some "default") 3
        (StreamContextService.new 10 0)).2).stream_contexts "default").map
      (fun c => c.message_count) = some 0 := by
  have h := analyze_mood_frame (StreamContextService.new 10 0) "default"
    (("hi all").toList) 3 (StreamContextService.defaultCtx 0) (by decide)
  refine ⟨by decide, h.1, h.2.2.1 "other" (by decide), ?_⟩
  obtain ⟨c', hc', hfields⟩ := h.2.2.2
  rw [hc', Option.map_some', hfields.2.2.2.1]
  rfl
